import Mathlib

/-!
Shallow embedding of the `use-clipboard` transition-sequence engine
(the `useClipboard` React hook), and verification of its specification.

The engine coordinates writing to a host clipboard and exposes a status
progressing through the phases `entering → entered → exiting → exited`,
with caller-configurable per-phase durations.  We embed the pure pieces of
the source (`getTransitionStatus`, the duration/next-state resolvers, the
timeout fingerprint, `writeText`'s state transition) as Lean functions and
the hook's effect loop as an explicit reachability relation on session
states.
-/

namespace Clipboard

/-- Statuses for the `status.copy` state (source: `type CopyStatus`). -/
inductive CopyStatus
  | idle
  | resolved
  | rejected
deriving DecidableEq, Repr

/-- Statuses for the `status.transition` state (source: `type TransitionStatus`). -/
inductive TransitionStatus
  | entering
  | entered
  | exiting
  | exited
deriving DecidableEq, Repr

/-- A pair of a copy status and a transition status (source: `interface StatusState`). -/
structure StatusState where
  copyStatus : CopyStatus
  transitionStatus : TransitionStatus
deriving DecidableEq, Repr

/-- The hook's session state (source: `interface UseClipboardState`).
A JavaScript `Error` is modelled by its message string; `null` is `none`. -/
structure UseClipboardState where
  error : Option String
  copyStatus : CopyStatus
  transitionStatus : TransitionStatus
deriving DecidableEq, Repr

/-- Durations for each non-terminal transition status (source: `type Durations`).
JavaScript numbers are modelled as integers: the code only compares them
with `<= 0`, and negative caller-supplied durations are not validated. -/
structure Durations where
  entering : Int
  entered : Int
  exiting : Int
deriving DecidableEq, Repr

/-- Indexing `durations[status]`.  The source only ever indexes with a
non-`exited` status (`durations` has no `exited` key); the `exited` case
is unreachable in the embedded code and returns 0. -/
def Durations.get (d : Durations) : TransitionStatus → Int
  | .entering => d.entering
  | .entered => d.entered
  | .exiting => d.exiting
  | .exited => 0

/-- Source: `const defaultDurations = { entering: 0, entered: 0, exiting: 0 }`. -/
def defaultDurations : Durations := ⟨0, 0, 0⟩

/-- Mapping from each non-terminal status to the status state adopted when
its duration elapses (source: `type NextStatusStates`). -/
structure NextStatusStates where
  entering : StatusState
  entered : StatusState
  exiting : StatusState
deriving DecidableEq, Repr

/-- Indexing `nextStatusStates[status]`.  The source only ever indexes with
a non-`exited` status; the `exited` case is unreachable in the embedded
code and returns the resting status state. -/
def NextStatusStates.get (m : NextStatusStates) : TransitionStatus → StatusState
  | .entering => m.entering
  | .entered => m.entered
  | .exiting => m.exiting
  | .exited => ⟨.idle, .exited⟩

/-- Source: `const nextStatuses = { exited: 'entering', entering: 'entered',
entered: 'exiting', exiting: 'exited' }`. -/
def nextStatuses : TransitionStatus → TransitionStatus
  | .exited => .entering
  | .entering => .entered
  | .entered => .exiting
  | .exiting => .exited

/-- Source: `const defaultNextStatusStates` — the sequence-variant
next-status map, used when the timeout option is an object. -/
def defaultNextStatusStates : NextStatusStates where
  entering := ⟨.resolved, .entered⟩
  entered := ⟨.resolved, .exiting⟩
  exiting := ⟨.idle, .exited⟩

/-- The simple-variant next-status map, built in the source as
`{ ...defaultNextStatusStates, entered: { copyStatus: 'idle',
transitionStatus: 'exited' } }` when the timeout option is not an object. -/
def simpleNextStatusStates : NextStatusStates :=
  { defaultNextStatusStates with entered := ⟨.idle, .exited⟩ }

/-- The engine only ever uses one of the two next-status map variants. -/
def IsVariantMap (m : NextStatusStates) : Prop :=
  m = defaultNextStatusStates ∨ m = simpleNextStatusStates

instance : DecidablePred IsVariantMap := fun m =>
  inferInstanceAs (Decidable (m = defaultNextStatusStates ∨ m = simpleNextStatusStates))

/-- One unrolling of the source's `while` loop in `getTransitionStatus`:

```
while (status !== 'exited' && duration <= 0) {
  duration = durations[status]
  if (duration <= 0) {
    status = nextStatusStates[status].transitionStatus
  }
}
```

The loop is bounded by fuel.  For the two next-status map variants the
engine actually uses, every orbit reaches `exited` within three steps, so
fuel 4 makes the fueled function agree with the source loop wherever the
loop terminates (the fuel-exhaustion branch is never taken). -/
def getTransitionStatusAux (nextStatusStates : NextStatusStates) (durations : Durations) :
    Nat → TransitionStatus → TransitionStatus
  | 0, status => status
  | fuel + 1, status =>
    if status = .exited then status
    else if durations.get status ≤ 0 then
      getTransitionStatusAux nextStatusStates durations fuel
        (nextStatusStates.get status).transitionStatus
    else status

/-- Source: `getTransitionStatus` — returns the provided or next transition
status with a positive timeout integer, skipping zero-duration statuses. -/
def getTransitionStatus (transitionStatus : TransitionStatus)
    (nextStatusStates : NextStatusStates) (durations : Durations) : TransitionStatus :=
  getTransitionStatusAux nextStatusStates durations 4 transitionStatus

/-- Source: `const defaultState = { error: null, copyStatus: 'idle',
transitionStatus: 'exited' }`. -/
def defaultState : UseClipboardState := ⟨none, .idle, .exited⟩

/-- Content to write to the clipboard (source: `type Text = string | number`).
JavaScript numbers appearing as clipboard text are modelled as integers. -/
inductive Text
  | str (s : String)
  | num (n : Int)
deriving DecidableEq, Repr

/-- JavaScript `text.toString()` on a `Text` value. -/
def Text.toStr : Text → String
  | .str s => s
  | .num n => toString n

/-- The caller-supplied `options.timeout` value:
`number | SequenceTimeout | undefined`. -/
structure SequenceTimeout where
  entering : Option Int
  entered : Option Int
  exiting : Option Int
deriving DecidableEq, Repr

/-- The `options.timeout` field: a number, a partial per-status map, or
absent (`undefined`). -/
inductive TimeoutValue
  | num (n : Int)
  | obj (t : SequenceTimeout)
  | absent
deriving DecidableEq, Repr

/-- JavaScript string interpolation of a possibly-absent number:
`${undefined}` is the string `"undefined"`. -/
def optNumString : Option Int → String
  | none => "undefined"
  | some n => toString n

/-- The value of the source's `hasTimeoutChange` memo: a string for object
timeouts, otherwise the timeout itself (a number or `undefined`). -/
inductive TimeoutFingerprint
  | str (s : String)
  | num (n : Int)
  | absent
deriving DecidableEq, Repr

/-- Source: the `hasTimeoutChange` memo — a faux deep-equality fingerprint
of `options.timeout`:

```
if (typeof timeout === 'object') {
  return `${timeout['entering']}${timeout['entered']}${timeout['exiting']}`
}
return timeout
``` -/
def hasTimeoutChange (timeout : TimeoutValue) : TimeoutFingerprint :=
  match timeout with
  | .obj t => .str (optNumString t.entering ++ optNumString t.entered ++ optNumString t.exiting)
  | .num n => .num n
  | .absent => .absent

/-- Source: the `durations` memo — resolves `options.timeout` into a
complete duration table:

```
typeof options.timeout === 'object'
  ? { entering: options.timeout?.entering ?? 0,
      entered: options.timeout?.entered ?? 0,
      exiting: options.timeout?.exiting ?? 0 }
  : { ...defaultDurations, entered: options.timeout ?? 0 }
``` -/
def durations (timeout : TimeoutValue) : Durations :=
  match timeout with
  | .obj t => ⟨t.entering.getD 0, t.entered.getD 0, t.exiting.getD 0⟩
  | .num n => { defaultDurations with entered := n }
  | .absent => { defaultDurations with entered := 0 }

/-- Source: the `nextStatusStates` memo — picks the next-status map variant
from the shape of `options.timeout`. -/
def nextStatusStates (timeout : TimeoutValue) : NextStatusStates :=
  match timeout with
  | .obj _ => defaultNextStatusStates
  | _ => simpleNextStatusStates

/-- The first argument of `writeText`: a plain `Text` value, or a React
synthetic event (any non-string, non-number object). -/
inductive WriteTextArg
  | text (t : Text)
  | syntheticEvent
deriving DecidableEq, Repr

/-- The text-resolution step of `writeText`:

```
const clipboardText =
  typeof text === 'string' || typeof text === 'number'
    ? text.toString()
    : options.text?.toString() || ''
```

(`options.text?.toString() || ''` yields `''` both when `options.text` is
absent and when it stringifies to the empty string.) -/
def resolveClipboardText (text : Option WriteTextArg) (optionsText : Option Text) : String :=
  match text with
  | some (.text t) => t.toStr
  | _ => (optionsText.map Text.toStr).getD ("")

/-- Outcome of the external `navigator.clipboard.writeText` call, which
either resolves or rejects with an error. -/
inductive WriteOutcome
  | success
  | failure (e : String)
deriving DecidableEq, Repr

/-- Observable result of one `writeText` call: the state passed to
`safeSetState` if it was called, and the text passed to the external
clipboard primitive if it was invoked. -/
structure WriteTextResult where
  newState : Option UseClipboardState
  wrote : Option String
deriving DecidableEq, Repr

/-- Source: the `writeText` callback.  The asynchronous external write is
modelled by its outcome, supplied as an argument; the `try`/`catch`
captures a failure into session state, so the embedded function is total
(the source promise never rejects).

```
if (state.transitionStatus !== 'exited') return
const clipboardText = ...
if (!clipboardText) return
await navigator.clipboard.writeText(clipboardText)
const transitionStatus = getTransitionStatus(
  nextStatuses[state.transitionStatus], nextStatusStates, durations)
if (transitionStatus === 'exited') return
safeSetState({ error: null, copyStatus: 'resolved', transitionStatus })
// catch: safeSetState({ error, copyStatus: 'rejected', transitionStatus: 'exited' })
``` -/
def writeText (state : UseClipboardState) (text : Option WriteTextArg)
    (optionsText : Option Text) (nextStatusStates : NextStatusStates)
    (durations : Durations) (outcome : WriteOutcome) : WriteTextResult :=
  if state.transitionStatus ≠ .exited then ⟨none, none⟩
  else
    let clipboardText := resolveClipboardText text optionsText
    if clipboardText = "" then ⟨none, none⟩
    else
      match outcome with
      | .failure e => ⟨some ⟨some e, .rejected, .exited⟩, some clipboardText⟩
      | .success =>
        let transitionStatus :=
          getTransitionStatus (nextStatuses state.transitionStatus) nextStatusStates durations
        if transitionStatus = .exited then ⟨none, some clipboardText⟩
        else ⟨some ⟨none, .resolved, transitionStatus⟩, some clipboardText⟩

/-- The timer the hook's effect keeps pending, as a function of the session
state and the current configuration: `none` when the effect is inert
(phase `exited`) or resets immediately; otherwise the observed status the
timer advances past, with its delay `durations[transitionStatus]`. -/
def pendingTimer (state : UseClipboardState) (m : NextStatusStates) (d : Durations) :
    Option (TransitionStatus × Int) :=
  if state.transitionStatus = .exited then none
  else
    let observed := getTransitionStatus state.transitionStatus m d
    if observed = .exited then none
    else some (observed, d.get observed)

/-- Following the phase component of the next-status map one step
(the spec's "repeatedly following the map's phase component"). -/
def phaseStep (m : NextStatusStates) (s : TransitionStatus) : TransitionStatus :=
  (m.get s).transitionStatus

/-- The session state after a `writeText` call: the state passed to
`safeSetState` when it was called, otherwise the unchanged previous
state. -/
def stateAfter (s : UseClipboardState) (r : WriteTextResult) : UseClipboardState :=
  r.newState.getD s

/-- Session states reachable through the engine's steps under a fixed
configuration `(m, d)`:
initial state, a `writeText` whose `safeSetState` fires (success or
failure branch), the effect's reset when the observed status collapses to
`exited`, and the effect's timer firing (which adopts
`nextStatusStates[observedStatus]` raw, before any skipping). -/
inductive Reachable (m : NextStatusStates) (d : Durations) : UseClipboardState → Prop
  | init : Reachable m d defaultState
  | writeStep (s : UseClipboardState) (text : Option WriteTextArg)
      (optionsText : Option Text) (outcome : WriteOutcome) (s' : UseClipboardState) :
      Reachable m d s →
      (writeText s text optionsText m d outcome).newState = some s' →
      Reachable m d s'
  | effectReset (s : UseClipboardState) :
      Reachable m d s →
      s.transitionStatus ≠ .exited →
      getTransitionStatus s.transitionStatus m d = .exited →
      Reachable m d defaultState
  | timerFired (s : UseClipboardState) :
      Reachable m d s →
      s.transitionStatus ≠ .exited →
      getTransitionStatus s.transitionStatus m d ≠ .exited →
      Reachable m d
        ⟨none, (m.get (getTransitionStatus s.transitionStatus m d)).copyStatus,
          (m.get (getTransitionStatus s.transitionStatus m d)).transitionStatus⟩

/-- Session states reachable without any timer firing: the restriction of
`Reachable` to the write steps and the effect's immediate reset. -/
inductive ReachableNoTimer (m : NextStatusStates) (d : Durations) : UseClipboardState → Prop
  | init : ReachableNoTimer m d defaultState
  | writeStep (s : UseClipboardState) (text : Option WriteTextArg)
      (optionsText : Option Text) (outcome : WriteOutcome) (s' : UseClipboardState) :
      ReachableNoTimer m d s →
      (writeText s text optionsText m d outcome).newState = some s' →
      ReachableNoTimer m d s'
  | effectReset (s : UseClipboardState) :
      ReachableNoTimer m d s →
      s.transitionStatus ≠ .exited →
      getTransitionStatus s.transitionStatus m d = .exited →
      ReachableNoTimer m d defaultState

/-! Helper lemmas: closed forms of the skipping loop for each start status
and each of the two next-status map variants, the loop-result invariant,
and a case analysis of `writeText`'s state update. -/

lemma gts_exited (m : NextStatusStates) (d : Durations) :
    getTransitionStatus .exited m d = .exited := rfl

lemma gts_default_entering (d : Durations) :
    getTransitionStatus .entering defaultNextStatusStates d =
      if d.entering ≤ 0 then
        if d.entered ≤ 0 then
          if d.exiting ≤ 0 then .exited else .exiting
        else .entered
      else .entering := by
  simp only [getTransitionStatus, getTransitionStatusAux, Durations.get,
    NextStatusStates.get, defaultNextStatusStates]
  split_ifs <;> simp_all

lemma gts_default_entered (d : Durations) :
    getTransitionStatus .entered defaultNextStatusStates d =
      if d.entered ≤ 0 then
        if d.exiting ≤ 0 then .exited else .exiting
      else .entered := by
  simp only [getTransitionStatus, getTransitionStatusAux, Durations.get,
    NextStatusStates.get, defaultNextStatusStates]
  split_ifs <;> simp_all

lemma gts_default_exiting (d : Durations) :
    getTransitionStatus .exiting defaultNextStatusStates d =
      if d.exiting ≤ 0 then .exited else .exiting := by
  simp only [getTransitionStatus, getTransitionStatusAux, Durations.get,
    NextStatusStates.get, defaultNextStatusStates]
  split_ifs <;> simp_all

lemma gts_simple_entering (d : Durations) :
    getTransitionStatus .entering simpleNextStatusStates d =
      if d.entering ≤ 0 then
        if d.entered ≤ 0 then .exited else .entered
      else .entering := by
  simp only [getTransitionStatus, getTransitionStatusAux, Durations.get,
    NextStatusStates.get, simpleNextStatusStates, defaultNextStatusStates]
  split_ifs <;> simp_all

lemma gts_simple_entered (d : Durations) :
    getTransitionStatus .entered simpleNextStatusStates d =
      if d.entered ≤ 0 then .exited else .entered := by
  simp only [getTransitionStatus, getTransitionStatusAux, Durations.get,
    NextStatusStates.get, simpleNextStatusStates, defaultNextStatusStates]
  split_ifs <;> simp_all

lemma gts_simple_exiting (d : Durations) :
    getTransitionStatus .exiting simpleNextStatusStates d =
      if d.exiting ≤ 0 then .exited else .exiting := by
  simp only [getTransitionStatus, getTransitionStatusAux, Durations.get,
    NextStatusStates.get, simpleNextStatusStates, defaultNextStatusStates]
  split_ifs <;> simp_all

/-- For either next-status map variant, the skipping loop lands on `exited`
or on a status with strictly positive duration. -/
lemma gts_observable {m : NextStatusStates} (hm : IsVariantMap m)
    (d : Durations) (s : TransitionStatus) :
    getTransitionStatus s m d = .exited ∨ d.get (getTransitionStatus s m d) > 0 := by
  rcases hm with rfl | rfl <;> cases s <;>
    simp only [gts_exited, gts_default_entering, gts_default_entered, gts_default_exiting,
      gts_simple_entering, gts_simple_entered, gts_simple_exiting] <;>
    first
      | exact Or.inl trivial
      | (split_ifs <;> simp_all [Durations.get])

/-- One unrolling of the fueled loop, as a rewrite rule. -/
lemma gtsAux_succ (m : NextStatusStates) (d : Durations) (fuel : Nat) (s : TransitionStatus) :
    getTransitionStatusAux m d (fuel + 1) s =
      if s = .exited then s
      else if d.get s ≤ 0 then
        getTransitionStatusAux m d fuel (m.get s).transitionStatus
      else s := rfl

/-- A status that is `exited` or has strictly positive duration is a fixed
point of the skipping loop (for any next-status map). -/
lemma gts_fixed (s : TransitionStatus) (m : NextStatusStates) (d : Durations)
    (h : s = .exited ∨ d.get s > 0) : getTransitionStatus s m d = s := by
  rcases h with rfl | h
  · rfl
  · have hne : s ≠ .exited := by
      rintro rfl
      simp [Durations.get] at h
    show getTransitionStatusAux m d 4 s = s
    rw [show (4 : Nat) = 3 + 1 from rfl, gtsAux_succ, if_neg hne, if_neg (not_le.mpr h)]

/-- Case analysis of a `writeText` call that updated the session state:
it was the failure branch, or the success branch with a non-`exited`
observable status. -/
lemma writeText_newState {s : UseClipboardState} {text : Option WriteTextArg}
    {optionsText : Option Text} {m : NextStatusStates} {d : Durations}
    {o : WriteOutcome} {s' : UseClipboardState}
    (h : (writeText s text optionsText m d o).newState = some s') :
    s.transitionStatus = .exited ∧
      ((∃ e, o = .failure e ∧ s' = ⟨some e, .rejected, .exited⟩) ∨
        (o = .success ∧ s' = ⟨none, .resolved, getTransitionStatus .entering m d⟩ ∧
          getTransitionStatus .entering m d ≠ .exited)) := by
  by_cases hts : s.transitionStatus = .exited
  · refine ⟨hts, ?_⟩
    simp only [writeText, hts, ne_eq, not_true_eq_false, if_false, ite_not] at h
    by_cases hempty : resolveClipboardText text optionsText = ""
    · simp [hempty] at h
    · simp only [hempty, if_false] at h
      cases o with
      | failure e =>
        simp only [Option.some.injEq] at h
        exact Or.inl ⟨e, rfl, h.symm⟩
      | success =>
        simp only [hts, nextStatuses] at h
        by_cases hskip : getTransitionStatus .entering m d = .exited
        · simp [hskip] at h
        · simp only [hskip, if_false, Option.some.injEq] at h
          exact Or.inr ⟨rfl, h.symm, hskip⟩
  · exfalso
    simp [writeText, hts] at h

/-- The fueled skipping loop follows the phase component of the
next-status map: its value is the `k`-th iterate of `phaseStep` for some
`k`, and every earlier iterate is a non-`exited` status whose duration is
not positive (so the loop could not have stopped there). -/
lemma gtsAux_iterate (m : NextStatusStates) (d : Durations) (fuel : Nat) :
    ∀ s : TransitionStatus,
      ∃ k, getTransitionStatusAux m d fuel s = (phaseStep m)^[k] s ∧
        ∀ j, j < k → (phaseStep m)^[j] s ≠ .exited ∧ d.get ((phaseStep m)^[j] s) ≤ 0 := by
  induction fuel with
  | zero =>
    intro s
    exact ⟨0, rfl, fun j hj => absurd hj (Nat.not_lt_zero j)⟩
  | succ fuel ih =>
    intro s
    by_cases hs : s = .exited
    · refine ⟨0, ?_, fun j hj => absurd hj (Nat.not_lt_zero j)⟩
      rw [gtsAux_succ, if_pos hs]
      rfl
    · by_cases hd : d.get s ≤ 0
      · obtain ⟨k, hk, hall⟩ := ih ((m.get s).transitionStatus)
        refine ⟨k + 1, ?_, ?_⟩
        · rw [gtsAux_succ, if_neg hs, if_pos hd, hk, Function.iterate_succ_apply]
          rfl
        · intro j hj
          cases j with
          | zero => exact ⟨hs, hd⟩
          | succ i =>
            have hi : i < k := by omega
            have h := hall i hi
            rw [Function.iterate_succ_apply]
            exact h
      · refine ⟨0, ?_, fun j hj => absurd hj (Nat.not_lt_zero j)⟩
        rw [gtsAux_succ, if_neg hs, if_neg hd]
        rfl

/-- Neither next-status map variant contains a `rejected` copy status. -/
lemma variant_no_rejected {m : NextStatusStates} (hm : IsVariantMap m)
    (t : TransitionStatus) : (m.get t).copyStatus ≠ .rejected := by
  rcases hm with rfl | rfl <;> cases t <;> decide

/-- C1: the claim — an in-flight `writeText` call is a no-op — is what the
guard `if (state.transitionStatus !== 'exited') return` intends, but the
code violates it: the source memoizes the callback with
`React.useCallback(..., [options.text, nextStatusStates, durations])`,
omitting `state` from the dependency array, so with unchanged options the
callback in play during an in-flight sequence is the one created when the
session state was `defaultState` and its guard reads that stale captured
state (`exited`), not the current one.  This theorem evaluates the embedded
code at the failing input (configuration `timeout: 2000`, i.e. the simple
variant with durations `(0, 2000, 0)`, text `"hi"`): the first call commits
the in-flight state `(error null, copy resolved, transition entered)`; a
fresh closure reading that current state would indeed no-op; but the stale
closure the program actually runs — `writeText` applied to the captured
`defaultState` — passes the guard, invokes the external write primitive
again, and commits a state update (in the program a fresh object, so the
effect re-runs, clearing the pending timer and scheduling a new one whose
delay `pendingTimer` exhibits). -/
theorem writeText_stale_guard_bug :
    (writeText defaultState (some (.text (.str ("hi")))) none simpleNextStatusStates
        ⟨0, 2000, 0⟩ .success).newState = some ⟨none, .resolved, .entered⟩ ∧
    (⟨none, .resolved, .entered⟩ : UseClipboardState).transitionStatus ≠ .exited ∧
    writeText ⟨none, .resolved, .entered⟩ (some (.text (.str ("hi")))) none
        simpleNextStatusStates ⟨0, 2000, 0⟩ .success = ⟨none, none⟩ ∧
    (writeText defaultState (some (.text (.str ("hi")))) none simpleNextStatusStates
        ⟨0, 2000, 0⟩ .success).wrote = some ("hi") ∧
    (writeText defaultState (some (.text (.str ("hi")))) none simpleNextStatusStates
        ⟨0, 2000, 0⟩ .success).newState ≠ none ∧
    pendingTimer ⟨none, .resolved, .entered⟩ simpleNextStatusStates ⟨0, 2000, 0⟩ =
      some (.entered, 2000) := by
  refine ⟨by decide, by decide, by decide, by decide, by decide, by decide⟩

/-- C4: for every start status, next-status map variant and duration
table, `getTransitionStatus` returns the first status reached by
repeatedly following the map's phase component that is `exited` or has
strictly positive configured duration: its value is an iterate of
`phaseStep`, every earlier iterate is a non-`exited` status with
non-positive duration, the value itself is `exited` or has positive
duration, and a start status already satisfying that predicate is
returned unchanged. -/
theorem gts_first_observable (m : NextStatusStates) (hm : IsVariantMap m)
    (d : Durations) (s : TransitionStatus) :
    (∃ k, getTransitionStatus s m d = (phaseStep m)^[k] s ∧
        ∀ j, j < k → (phaseStep m)^[j] s ≠ .exited ∧ d.get ((phaseStep m)^[j] s) ≤ 0) ∧
      (getTransitionStatus s m d = .exited ∨ d.get (getTransitionStatus s m d) > 0) ∧
      ((s = .exited ∨ d.get s > 0) → getTransitionStatus s m d = s) :=
  ⟨gtsAux_iterate m d 4 s, gts_observable hm d s, fun h => gts_fixed s m d h⟩

/-- Witness for C4 at the sequence-variant map, durations `(0, 5, 0)` and
start status `entering`. -/
theorem gts_first_observable_witness :
    (∃ k, getTransitionStatus .entering defaultNextStatusStates ⟨0, 5, 0⟩ =
          (phaseStep defaultNextStatusStates)^[k] .entering ∧
        ∀ j, j < k → (phaseStep defaultNextStatusStates)^[j] .entering ≠ .exited ∧
          Durations.get ⟨0, 5, 0⟩ ((phaseStep defaultNextStatusStates)^[j] .entering) ≤ 0) ∧
      (getTransitionStatus .entering defaultNextStatusStates ⟨0, 5, 0⟩ = .exited ∨
        Durations.get ⟨0, 5, 0⟩
          (getTransitionStatus .entering defaultNextStatusStates ⟨0, 5, 0⟩) > 0) ∧
      ((TransitionStatus.entering = .exited ∨ Durations.get ⟨0, 5, 0⟩ .entering > 0) →
        getTransitionStatus .entering defaultNextStatusStates ⟨0, 5, 0⟩ = .entering) :=
  gts_first_observable defaultNextStatusStates (Or.inl rfl) ⟨0, 5, 0⟩ .entering

/-- C10: `getTransitionStatus` is idempotent for either next-status map
variant and any duration table, because its result is always `exited` or a
status with strictly positive duration, and such statuses are fixed
points. -/
theorem gts_idempotent (m : NextStatusStates) (hm : IsVariantMap m)
    (d : Durations) (s : TransitionStatus) :
    getTransitionStatus (getTransitionStatus s m d) m d = getTransitionStatus s m d :=
  gts_fixed (getTransitionStatus s m d) m d (gts_observable hm d s)

/-- Witness for C10 at the simple-variant map, durations `(0, 0, 3)` and
start status `entering`. -/
theorem gts_idempotent_witness :
    getTransitionStatus
        (getTransitionStatus .entering simpleNextStatusStates ⟨0, 0, 3⟩)
        simpleNextStatusStates ⟨0, 0, 3⟩ =
      getTransitionStatus .entering simpleNextStatusStates ⟨0, 0, 3⟩ :=
  gts_idempotent simpleNextStatusStates (Or.inr rfl) ⟨0, 0, 3⟩ .entering

/-- C7: the configuration resolver's full contract.  A single-number
timeout `n` resolves to the duration table `(entering 0, entered n,
exiting 0)` paired with the simple next-status map, which agrees with the
sequence map except that `entered` maps to `(idle, exited)`; a partial map
resolves each status to the supplied value or 0 when absent, paired with
the sequence map `entering→(resolved,entered)`, `entered→(resolved,
exiting)`, `exiting→(idle,exited)`. -/
theorem resolver_contract :
    (∀ n : Int,
        durations (.num n) = ⟨0, n, 0⟩ ∧
        nextStatusStates (.num n) = simpleNextStatusStates ∧
        simpleNextStatusStates.entering = defaultNextStatusStates.entering ∧
        simpleNextStatusStates.exiting = defaultNextStatusStates.exiting ∧
        simpleNextStatusStates.entered = ⟨.idle, .exited⟩) ∧
    (∀ t : SequenceTimeout,
        durations (.obj t) = ⟨t.entering.getD 0, t.entered.getD 0, t.exiting.getD 0⟩ ∧
        nextStatusStates (.obj t) = defaultNextStatusStates) ∧
    defaultNextStatusStates =
      ⟨⟨.resolved, .entered⟩, ⟨.resolved, .exiting⟩, ⟨.idle, .exited⟩⟩ :=
  ⟨fun _ => ⟨rfl, rfl, rfl, rfl, rfl⟩, fun _ => ⟨rfl, rfl⟩, rfl⟩

/-- C8: `writeText` resolves the text to write as the explicit argument
when it is a plain string or number value (a synthetic event is ignored),
otherwise the engine's configured text (empty when absent); when the
resolved text is empty the call is a no-op that performs no external write
and no state change. -/
theorem writeText_text_resolution :
    (∀ (t : Text) (optionsText : Option Text),
        resolveClipboardText (some (.text t)) optionsText = t.toStr) ∧
    (∀ optionsText : Option Text,
        resolveClipboardText (some .syntheticEvent) optionsText =
          (optionsText.map Text.toStr).getD ("") ∧
        resolveClipboardText none optionsText = (optionsText.map Text.toStr).getD ("")) ∧
    (∀ (s : UseClipboardState) (text : Option WriteTextArg) (optionsText : Option Text)
        (m : NextStatusStates) (d : Durations) (o : WriteOutcome),
        resolveClipboardText text optionsText = "" →
        writeText s text optionsText m d o = ⟨none, none⟩) := by
  refine ⟨fun t optionsText => rfl, fun optionsText => ⟨rfl, rfl⟩, ?_⟩
  intro s text optionsText m d o hempty
  by_cases hts : s.transitionStatus = .exited
  · simp [writeText, hts, hempty]
  · simp [writeText, hts]

/-- Witness for C8: explicit plain argument wins, and an empty resolved
text makes the call a no-op. -/
theorem writeText_text_resolution_witness :
    resolveClipboardText (some (.text (.str ("hi")))) (some (.str ("cfg"))) = "hi" ∧
    writeText defaultState none none defaultNextStatusStates ⟨0, 5, 0⟩ .success =
      ⟨none, none⟩ :=
  ⟨writeText_text_resolution.1 (.str ("hi")) (some (.str ("cfg"))),
    writeText_text_resolution.2.2 defaultState none none defaultNextStatusStates
      ⟨0, 5, 0⟩ .success (by decide)⟩

/-- C5: when the external write primitive fails, `writeText` sets the
session state to the thrown error, copy status `rejected` and transition
status `exited` (the embedded function is total: the source's `catch`
captures the rejection, so the returned promise resolves and the caller
observes the failure only through state); a subsequent `writeText` call on
the resulting state is not blocked by the in-flight guard and invokes the
write primitive again whenever its resolved text is non-empty. -/
theorem writeText_failure_captured (s : UseClipboardState) (text : Option WriteTextArg)
    (optionsText : Option Text) (m : NextStatusStates) (d : Durations) (e : String)
    (hts : s.transitionStatus = .exited)
    (hne : resolveClipboardText text optionsText ≠ "") :
    writeText s text optionsText m d (.failure e) =
      ⟨some ⟨some e, .rejected, .exited⟩, some (resolveClipboardText text optionsText)⟩ ∧
    (∀ (text2 : Option WriteTextArg) (ot2 : Option Text) (o2 : WriteOutcome),
        resolveClipboardText text2 ot2 ≠ "" →
        ((writeText ⟨some e, .rejected, .exited⟩ text2 ot2 m d o2).wrote =
          some (resolveClipboardText text2 ot2))) := by
  constructor
  · simp [writeText, hts, hne]
  · intro text2 ot2 o2 hne2
    cases o2 with
    | failure e2 => simp [writeText, hne2]
    | success =>
      simp only [writeText, ne_eq, not_true_eq_false, if_false, ite_not, if_pos rfl,
        hne2, ite_false]
      split <;> rfl

/-- Witness for C5 at a concrete failing write. -/
theorem writeText_failure_captured_witness :
    writeText defaultState (some (.text (.str ("hi")))) none defaultNextStatusStates
        ⟨0, 5, 0⟩ (.failure ("denied")) =
      ⟨some ⟨some ("denied"), .rejected, .exited⟩,
        some (resolveClipboardText (some (.text (.str ("hi")))) none)⟩ ∧
    (∀ (text2 : Option WriteTextArg) (ot2 : Option Text) (o2 : WriteOutcome),
        resolveClipboardText text2 ot2 ≠ "" →
        ((writeText ⟨some ("denied"), .rejected, .exited⟩ text2 ot2 defaultNextStatusStates
            ⟨0, 5, 0⟩ o2).wrote = some (resolveClipboardText text2 ot2))) :=
  writeText_failure_captured defaultState (some (.text (.str ("hi")))) none
    defaultNextStatusStates ⟨0, 5, 0⟩ ("denied") (by decide) (by decide)

/-- C6: when every status in the duration table has non-positive duration,
a `writeText` call whose external write succeeds performs no state
update: the computed first observable status is `exited`, and with no
state change the effect is not re-run, so the pending timer derived from
the post-call state is that of the pre-call state. -/
theorem writeText_all_zero_noop (s : UseClipboardState) (text : Option WriteTextArg)
    (optionsText : Option Text) (m : NextStatusStates) (d : Durations)
    (hm : IsVariantMap m)
    (h1 : d.entering ≤ 0) (h2 : d.entered ≤ 0) (h3 : d.exiting ≤ 0) :
    (writeText s text optionsText m d .success).newState = none ∧
      getTransitionStatus .entering m d = .exited ∧
      pendingTimer (stateAfter s (writeText s text optionsText m d .success)) m d =
        pendingTimer s m d := by
  have hskip : getTransitionStatus .entering m d = .exited := by
    rcases hm with rfl | rfl
    · rw [gts_default_entering, if_pos h1, if_pos h2, if_pos h3]
    · rw [gts_simple_entering, if_pos h1, if_pos h2]
  have hnone : (writeText s text optionsText m d .success).newState = none := by
    by_cases hts : s.transitionStatus = .exited
    · by_cases hempty : resolveClipboardText text optionsText = ""
      · simp [writeText, hts, hempty]
      · simp [writeText, hts, hempty, nextStatuses, hskip]
    · simp [writeText, hts]
  refine ⟨hnone, hskip, ?_⟩
  simp [stateAfter, hnone]

/-- Witness for C6 at a concrete all-zero duration table. -/
theorem writeText_all_zero_noop_witness :
    (writeText defaultState (some (.text (.str ("x")))) none defaultNextStatusStates
        ⟨0, 0, 0⟩ .success).newState = none ∧
      getTransitionStatus .entering defaultNextStatusStates ⟨0, 0, 0⟩ = .exited ∧
      pendingTimer
          (stateAfter defaultState
            (writeText defaultState (some (.text (.str ("x")))) none
              defaultNextStatusStates ⟨0, 0, 0⟩ .success))
          defaultNextStatusStates ⟨0, 0, 0⟩ =
        pendingTimer defaultState defaultNextStatusStates ⟨0, 0, 0⟩ :=
  writeText_all_zero_noop defaultState (some (.text (.str ("x")))) none
    defaultNextStatusStates ⟨0, 0, 0⟩ (Or.inl rfl) (by decide) (by decide) (by decide)

/-- C2, counterexample: the timeout fingerprint is string concatenation of
the three raw fields, which is ambiguous — the configurations
`{entering: 1, entered: 11, exiting: 1}` and `{entering: 11, entered: 1,
exiting: 1}` resolve to distinct duration tables yet share the fingerprint
`"1111"`, refuting the claim that configurations with distinct resolved
triples never share a fingerprint (and hence the claimed equivalence). -/
theorem hasTimeoutChange_collision :
    hasTimeoutChange (.obj ⟨some 1, some 11, some 1⟩) =
      hasTimeoutChange (.obj ⟨some 11, some 1, some 1⟩) ∧
    durations (.obj ⟨some 1, some 11, some 1⟩) ≠
      durations (.obj ⟨some 11, some 1, some 1⟩) := by
  exact ⟨by decide, by decide⟩

/-- C2, amended: the fingerprint is computed from the configuration's raw
field values, not its object identity — configurations with equal raw
fields always share a fingerprint — but it does not characterise the
resolved duration triple: configurations with distinct resolved triples
can share a fingerprint, and configurations with equal resolved triples
(and the same next-status map) can have distinct fingerprints. -/
theorem hasTimeoutChange_value_fingerprint :
    (∀ t1 t2 : SequenceTimeout,
        t1.entering = t2.entering → t1.entered = t2.entered → t1.exiting = t2.exiting →
        hasTimeoutChange (.obj t1) = hasTimeoutChange (.obj t2)) ∧
    (∃ t1 t2 : SequenceTimeout,
        durations (.obj t1) ≠ durations (.obj t2) ∧
        hasTimeoutChange (.obj t1) = hasTimeoutChange (.obj t2)) ∧
    (∃ t1 t2 : SequenceTimeout,
        durations (.obj t1) = durations (.obj t2) ∧
        nextStatusStates (.obj t1) = nextStatusStates (.obj t2) ∧
        hasTimeoutChange (.obj t1) ≠ hasTimeoutChange (.obj t2)) := by
  refine ⟨?_, ?_, ?_⟩
  · intro t1 t2 h1 h2 h3
    simp only [hasTimeoutChange, h1, h2, h3]
  · exact ⟨⟨some 1, some 21, none⟩, ⟨some 12, some 1, none⟩, by decide, by decide⟩
  · exact ⟨⟨some 0, none, none⟩, ⟨none, none, none⟩, by decide, by decide, by decide⟩

/-- Witness for C2's amended theorem: two value-equal configurations share
a fingerprint. -/
theorem hasTimeoutChange_value_fingerprint_witness :
    hasTimeoutChange (.obj ⟨some 2, none, some 3⟩) =
      hasTimeoutChange (.obj ⟨some (1 + 1), none, some 3⟩) :=
  hasTimeoutChange_value_fingerprint.1 ⟨some 2, none, some 3⟩ ⟨some (1 + 1), none, some 3⟩
    (by decide) (by decide) (by decide)

/-- C9: in every session state reachable under either next-status map
variant, copy status `rejected` implies transition status `exited`, and a
non-null error implies copy status `rejected` (every state update other
than the write-failure branch sets the error to null). -/
theorem reachable_rejected_invariant (m : NextStatusStates) (hm : IsVariantMap m)
    (d : Durations) (s : UseClipboardState) (h : Reachable m d s) :
    (s.copyStatus = .rejected → s.transitionStatus = .exited) ∧
      (s.error ≠ none → s.copyStatus = .rejected) := by
  induction h with
  | init => exact ⟨fun _ => rfl, fun he => absurd rfl he⟩
  | writeStep s text optionsText o s' hr hw ih =>
    obtain ⟨hts, hcase⟩ := writeText_newState hw
    rcases hcase with ⟨e, rfl, rfl⟩ | ⟨rfl, rfl, hne⟩
    · exact ⟨fun _ => rfl, fun _ => rfl⟩
    · exact ⟨(fun hc => nomatch hc), fun he => absurd rfl he⟩
  | effectReset s hr hts hg ih => exact ⟨fun _ => rfl, fun he => absurd rfl he⟩
  | timerFired s hr hts hg ih =>
    refine ⟨?_, fun he => absurd rfl he⟩
    intro hc
    exact absurd hc (variant_no_rejected hm _)

/-- Witness for C9 at a write-failure state reached concretely. -/
theorem reachable_rejected_invariant_witness :
    ((⟨some ("denied"), .rejected, .exited⟩ : UseClipboardState).copyStatus = .rejected →
      (⟨some ("denied"), .rejected, .exited⟩ : UseClipboardState).transitionStatus = .exited) ∧
    ((⟨some ("denied"), .rejected, .exited⟩ : UseClipboardState).error ≠ none →
      (⟨some ("denied"), .rejected, .exited⟩ : UseClipboardState).copyStatus = .rejected) :=
  reachable_rejected_invariant defaultNextStatusStates (Or.inl rfl) ⟨0, 5, 0⟩
    ⟨some ("denied"), .rejected, .exited⟩
    (Reachable.writeStep defaultState (some (.text (.str ("x")))) none (.failure ("denied"))
      ⟨some ("denied"), .rejected, .exited⟩ Reachable.init (by decide))

/-- C3, counterexample: with the sequence-variant map and durations
`(entering 5, entered 0, exiting 7)`, the state adopted when the first
timer fires is `(error null, copy resolved, transition entered)` — a
reachable state whose exposed transition status is neither `exited` nor of
strictly positive duration, because the timer adopts the raw next status
of the next-status map before any skipping occurs.  This refutes the claim
that no zero-duration status is ever observable. -/
theorem zero_duration_observable_cx :
    Reachable defaultNextStatusStates ⟨5, 0, 7⟩ ⟨none, .resolved, .entered⟩ ∧
    ¬((⟨none, .resolved, .entered⟩ : UseClipboardState).transitionStatus = .exited ∨
      Durations.get ⟨5, 0, 7⟩
        (⟨none, .resolved, .entered⟩ : UseClipboardState).transitionStatus > 0) := by
  constructor
  · have h1 : Reachable defaultNextStatusStates ⟨5, 0, 7⟩ ⟨none, .resolved, .entering⟩ :=
      Reachable.writeStep defaultState (some (.text (.str ("x")))) none .success
        ⟨none, .resolved, .entering⟩ Reachable.init (by decide)
    have h2 := Reachable.timerFired ⟨none, .resolved, .entering⟩ h1 (by decide) (by decide)
    exact h2
  · decide

/-- C3, amended: in every state reachable through the write steps and the
effect's immediate reset — that is, before any timer fires — the exposed
transition status is `exited` or has strictly positive duration; the
state adopted when a timer fires takes the raw next status of the
next-status map and may expose a zero-duration status. -/
theorem write_phase_observable (m : NextStatusStates) (hm : IsVariantMap m)
    (d : Durations) (s : UseClipboardState) (h : ReachableNoTimer m d s) :
    s.transitionStatus = .exited ∨ d.get s.transitionStatus > 0 := by
  induction h with
  | init => exact Or.inl rfl
  | writeStep s text optionsText o s' hr hw ih =>
    obtain ⟨hts, hcase⟩ := writeText_newState hw
    rcases hcase with ⟨e, rfl, rfl⟩ | ⟨rfl, rfl, hne⟩
    · exact Or.inl rfl
    · rcases gts_observable hm d .entering with h1 | h1
      · exact absurd h1 hne
      · exact Or.inr h1
  | effectReset s hr h1 h2 ih => exact Or.inl rfl

/-- Witness for C3's amended theorem at a concretely reached
write-success state. -/
theorem write_phase_observable_witness :
    (⟨none, .resolved, .entered⟩ : UseClipboardState).transitionStatus = .exited ∨
      Durations.get ⟨0, 5, 0⟩
        (⟨none, .resolved, .entered⟩ : UseClipboardState).transitionStatus > 0 :=
  write_phase_observable defaultNextStatusStates (Or.inl rfl) ⟨0, 5, 0⟩
    ⟨none, .resolved, .entered⟩
    (ReachableNoTimer.writeStep defaultState (some (.text (.str ("x")))) none .success
      ⟨none, .resolved, .entered⟩ ReachableNoTimer.init (by decide))

end Clipboard
